import Mathlib

/-!
# k8snake: credential cache, tunnel lifecycle and request rewriting

A shallow embedding of `pkg/services/keycloak.go`, `pkg/services/k8s.go` and
`main.go`.

Conventions of the embedding.

* A Go `error` is its message (`Error := String`); a Go pair `(value, error)`
  is a record with an `err : Option Error` field (`none` is `nil`).
* `time.Time` is an instant counted in nanoseconds (`Time := Int`);
  `Time.After` is the strict order and `Time.Add` is addition.  The clock
  readings `time.Now()` are explicit inputs of every function that reads the
  clock.
* `time.Duration` is a signed 64-bit count of nanoseconds: the product
  `time.Duration(n) * time.Second` wraps modulo `2^64`.
* Calls that leave the repository (HTTP client, JSON decoder, cluster API,
  port-forward transport) are inputs: each function takes a record holding
  what those calls answer.
-/

namespace K8snake

/-! ## pkg/services/keycloak.go -/

abbrev Error := String

abbrev Time := Int

abbrev Duration := Int

/-- Two's-complement reading of an integer as an `int64`. -/
def wrapInt64 (x : Int) : Int :=
  (x + 9223372036854775808) % 18446744073709551616 - 9223372036854775808

/-- The constant `time.Second`, in nanoseconds. -/
def Second : Duration := 1000000000

/-- The expression `time.Duration(n) * time.Second`: an `int64` product. -/
def secondsToDuration (n : Int) : Duration :=
  wrapInt64 (wrapInt64 n * Second)

/-- The method `Time.Add`. -/
def Time.Add (t : Time) (d : Duration) : Time := t + d

/-- The method `Time.After`: `t.After u` reports whether `t` is after `u`. -/
def Time.After (t u : Time) : Bool := decide (u < t)

structure Credentials where
  ClientID : String
  ClientSecret : String
deriving DecidableEq, Repr

structure KeycloakConfig where
  Credentials : Credentials
  TokenURL : String
deriving DecidableEq, Repr

structure KeycloakToken where
  Raw : String
  Expiration : Time
deriving DecidableEq, Repr

/-- The manager; its `token` pointer is `none` when nil.  The `httpClient`
field only selects which client performs the request, and the client's answer
is an input of `fetchAndStoreToken`. -/
structure KeycloakTokenManager where
  Config : KeycloakConfig
  token : Option KeycloakToken
deriving DecidableEq, Repr

def NewKeycloakTokenManager (config : KeycloakConfig) : KeycloakTokenManager :=
  { Config := config, token := none }

/-- The method `(*KeycloakToken).IsValid`, with `time.Now()` given as `now`. -/
def KeycloakToken.IsValid (now : Time) (token : Option KeycloakToken) : Bool :=
  match token with
  | none => false
  | some t => Time.After t.Expiration now

/-- The anonymous struct `responseData` of `fetchAndStoreToken`. -/
structure ResponseData where
  AccessToken : String
  ExpiresIn : Int
deriving DecidableEq, Repr

structure HttpResponse where
  StatusCode : Int
  Body : String
deriving DecidableEq, Repr

def StatusOK : Int := 200

/-- What the outside world answers during one run of `fetchAndStoreToken`:
the error of `http.NewRequest` if any, the result of `client.Do`, the JSON
decoder applied to a response body, and the clock reading taken when the token
is stored. -/
structure TokenEndpoint where
  newRequestErr : Option Error
  doResult : Except Error HttpResponse
  decode : String → Except Error ResponseData
  fetchNow : Time

/-- Result of a call on the manager: the Go return pair, the manager
afterwards, and two ghost counters: how many times `fetchAndStoreToken` was
entered and how many HTTP exchanges (`client.Do`) were performed. -/
structure TokenCall where
  tok : String
  err : Option Error
  manager : KeycloakTokenManager
  fetches : Nat
  exchanges : Nat

/-- The method `fetchAndStoreToken`. -/
def KeycloakTokenManager.fetchAndStoreToken (manager : KeycloakTokenManager)
    (w : TokenEndpoint) : TokenCall :=
  match w.newRequestErr with
  | some e => { tok := "", err := some e, manager := manager, fetches := 1, exchanges := 0 }
  | none =>
    match w.doResult with
    | .error e => { tok := "", err := some e, manager := manager, fetches := 1, exchanges := 1 }
    | .ok resp =>
      if resp.StatusCode ≠ StatusOK then
        { tok := "", err := some ("failed to get token: " ++ resp.Body),
          manager := manager, fetches := 1, exchanges := 1 }
      else
        match w.decode resp.Body with
        | .error e =>
          { tok := "", err := some e, manager := manager, fetches := 1, exchanges := 1 }
        | .ok responseData =>
          { tok := responseData.AccessToken, err := none,
            manager :=
              { manager with
                token := some
                  { Raw := responseData.AccessToken,
                    Expiration := Time.Add w.fetchNow (secondsToDuration responseData.ExpiresIn) } },
            fetches := 1, exchanges := 1 }

/-- The method `GetValidToken`; `now` is the clock reading of the validity
check. -/
def KeycloakTokenManager.GetValidToken (manager : KeycloakTokenManager)
    (now : Time) (w : TokenEndpoint) : TokenCall :=
  match manager.token with
  | some t =>
    if KeycloakToken.IsValid now (some t) then
      { tok := t.Raw, err := none, manager := manager, fetches := 0, exchanges := 0 }
    else manager.fetchAndStoreToken w
  | none => manager.fetchAndStoreToken w

/-! ## pkg/services/k8s.go -/

/-- A Go channel of `struct{}` values: its capacity and the number of values
waiting in its buffer.  The fields `sent` and `received` are ghost counters of
the sends and receives that went through. -/
structure Chan where
  cap : Nat
  queued : Nat
  sent : Nat
  received : Nat
deriving DecidableEq, Repr

/-- The expression `make(chan struct{}, n)`. -/
def makeChan (n : Nat) : Chan :=
  { cap := n, queued := 0, sent := 0, received := 0 }

/-- A send `c <- struct{}{}` by a goroutine with no receiver waiting: it goes
through when the buffer has room, and otherwise the sender blocks (`none`). -/
def Chan.send (c : Chan) : Option Chan :=
  if c.queued < c.cap then some { c with queued := c.queued + 1, sent := c.sent + 1 }
  else none

/-- A receive `<-c`: it goes through when a value is queued, and otherwise
the receiver blocks (`none`). -/
def Chan.recv (c : Chan) : Option Chan :=
  if 0 < c.queued then some { c with queued := c.queued - 1, received := c.received + 1 }
  else none

/-- The handle of a tunnel.  A nil channel is `none`; the channel a field
refers to is carried with its current state. -/
structure PFCommunication where
  stopChan : Option Chan
  startChan : Option Chan
  LocalPort : Int
deriving DecidableEq, Repr

/-- The zero value `var commChannel services.PFCommunication`. -/
def PFCommunication.zero : PFCommunication :=
  { stopChan := none, startChan := none, LocalPort := 0 }

/-- Result of one call of `Close`: either the call returned, leaving the
handle in the given state, or the send could not proceed and the caller is
blocked. -/
inductive CloseResult where
  | returned (pf : PFCommunication)
  | blocked
deriving DecidableEq, Repr

/-- The method `Close`: one send on the stop channel.  A send on a nil
channel blocks forever. -/
def PFCommunication.Close (pfKomm : PFCommunication) : CloseResult :=
  match pfKomm.stopChan with
  | none => .blocked
  | some c =>
    match c.send with
    | some c1 => .returned { pfKomm with stopChan := some c1 }
    | none => .blocked

/-- The method `IsStarted`. -/
def PFCommunication.IsStarted (pfKomm : PFCommunication) : Bool :=
  pfKomm.startChan.isSome

/-- The background forwarder taking the stop signal: it receives from the
stop channel at most once, and only when a signal is queued. -/
def forwarderReceive (pfKomm : PFCommunication) : PFCommunication :=
  match pfKomm.stopChan with
  | none => pfKomm
  | some c =>
    if c.received = 0 then
      match c.recv with
      | some c1 => { pfKomm with stopChan := some c1 }
      | none => pfKomm
    else pfKomm

/-- A caller invoking `Close` once per entry of `schedule`, in sequence; the
entry tells whether the forwarder is scheduled (and takes a queued signal)
just before that call.  The result is the number of calls that returned, the
handle afterwards, and whether a call found the send blocked (the caller is
then stuck in that call and makes no further one). -/
def closeTimes : List Bool → PFCommunication → Nat × PFCommunication × Bool
  | [], pf => (0, pf, false)
  | recvFirst :: rest, pf =>
    let pf1 := if recvFirst then forwarderReceive pf else pf
    match pf1.Close with
    | .blocked => (0, pf1, true)
    | .returned pf2 =>
      let r := closeTimes rest pf2
      (r.1 + 1, r.2.1, r.2.2)

/-- The two cases of the `select` in `PortForwardSVC`. -/
inductive SelectEvent where
  | ready
  | deadline
deriving DecidableEq, Repr

/-- Where `PortForwardSVC` stands with respect to its `select`. -/
inductive WaitState where
  | establishing
  | ready
  | timedOut
deriving DecidableEq, Repr

/-- One event seen while waiting: the first event decides, later ones are not
observed by the `select`. -/
def selectStep : WaitState → SelectEvent → WaitState
  | .establishing, .ready => .ready
  | .establishing, .deadline => .timedOut
  | s, _ => s

/-- What the outside world answers during one run of `PortForwardSVC`: the
errors of `spdy.RoundTripperFor`, `utils.GetFreePort` and `portforward.New`,
the event that fires first in the `select` (the 10-second timer guarantees
there is one) and the events after it, and the contents of the two output
buffers when they are inspected. -/
structure PortForwardWorld where
  roundTripperErr : Option Error
  freePort : Except Error Int
  forwarderErr : Option Error
  firstEvent : SelectEvent
  laterEvents : List SelectEvent
  errOut : String
  out : String

/-- Result of `PortForwardSVC`: the Go return pair, and as ghost state whether
the background forwarder goroutine was started and the stop channel made by
the call as it is when the call returns. -/
structure PortForwardResult where
  handle : Option PFCommunication
  err : Option Error
  forwarderStarted : Bool
  stopChan : Option Chan
  path : String
  portStr : Option String
deriving DecidableEq, Repr

/-- The method `PortForwardSVC`.  The dial path and the port string only feed
the transport, whose answers are in `w`; they are kept as ghost fields. -/
def PortForwardSVC (w : PortForwardWorld) (namespace_ podName : String) (port : Int) :
    PortForwardResult :=
  let path := "/api/v1/namespaces/" ++ namespace_ ++ "/pods/" ++ podName ++ "/portforward"
  match w.roundTripperErr with
  | some e =>
    { handle := none, err := some e, forwarderStarted := false, stopChan := none,
      path := path, portStr := none }
  | none =>
    let stopChan := makeChan 1
    let readyChan := makeChan 1
    match w.freePort with
    | .error e =>
      { handle := none, err := some e, forwarderStarted := false, stopChan := some stopChan,
        path := path, portStr := none }
    | .ok localPort =>
      let portStr := toString localPort ++ ":" ++ toString port
      match w.forwarderErr with
      | some e =>
        { handle := none, err := some e, forwarderStarted := false, stopChan := some stopChan,
          path := path, portStr := some portStr }
      | none =>
        match w.laterEvents.foldl selectStep (selectStep .establishing w.firstEvent) with
        | .ready =>
          if w.errOut.length ≠ 0 then
            { handle := none,
              err := some ("error found during init port-forward : " ++ w.errOut),
              forwarderStarted := true, stopChan := some stopChan,
              path := path, portStr := some portStr }
          else
            { handle := some
                { stopChan := some stopChan, startChan := some readyChan, LocalPort := localPort },
              err := none, forwarderStarted := true, stopChan := some stopChan,
              path := path, portStr := some portStr }
        | _ =>
          { handle := none,
            err := some "timeout waiting for port forwarding to be ready",
            forwarderStarted := true, stopChan := some stopChan,
            path := path, portStr := some portStr }

structure Pod where
  Name : String
deriving DecidableEq, Repr

structure Service where
  Selector : List (String × String)
deriving DecidableEq, Repr

/-- A secret: its `Data` map, a missing key reading as the empty value. -/
structure Secret where
  Data : String → String

/-- The method `GetSecret`; `got` is the answer of the cluster client. -/
def GetSecret (got : Except Error (Option Secret)) (namespace_ name : String) :
    Except Error Secret :=
  match got with
  | .error e => .error ("error getting secret: " ++ e)
  | .ok none => .error ("secret " ++ name ++ " not found in namespace " ++ namespace_)
  | .ok (some secret) => .ok secret

/-- The method `GetService`; `got` is the answer of the cluster client. -/
def GetService (got : Except Error (Option Service)) (namespace_ name : String) :
    Except Error Service :=
  match got with
  | .error e => .error ("error getting svc: " ++ e)
  | .ok none => .error ("service " ++ name ++ " not found in namespace " ++ namespace_)
  | .ok (some svc) => .ok svc

/-! ## main.go -/

/-- The package-level variables of `main.go`. -/
structure Vars where
  k8sNamespace : String
  serviceName : String
  servicePort : Int
  clientSecretID : String
  realmName : String
  keycloakURL : String
  customHeaderName : String
  customHeaderValue : String
deriving DecidableEq, Repr

/-- The values the variables have in the source. -/
def Vars.source : Vars :=
  { k8sNamespace := "TO_COMPLETE", serviceName := "TO_COMPLETE", servicePort := 8080,
    clientSecretID := "TO_COMPLETE", realmName := "TO_COMPLETE", keycloakURL := "TO_COMPLETE",
    customHeaderName := "TO_COMPLETE", customHeaderValue := "TO_COMPLETE" }

/-- The type `http.Header`: a map from keys to lists of values. -/
abbrev Header := String → Option (List String)

/-- The method `Header.Set`; `canon` is the canonical form of a header key
(`textproto.CanonicalMIMEHeaderKey`). -/
def Header.Set (canon : String → String) (h : Header) (key value : String) : Header :=
  fun k => if k = canon key then some [value] else h k

/-- The method `Header.Get`: the first value under the canonical key, the
empty string when there is none. -/
def Header.Get (canon : String → String) (h : Header) (key : String) : String :=
  match h (canon key) with
  | some (v :: _) => v
  | _ => ""

/-- The parts of `url.URL` an outgoing request carries. -/
structure URL where
  Scheme : String
  Host : String
  Path : String
  RawQuery : String
deriving DecidableEq, Repr

/-- An outgoing `http.Request` (its `URL` and `Header` are not nil). -/
structure Request where
  Method : String
  URL : URL
  Host : String
  Header : Header
  Body : String

/-- The closure returned by `getRequestModifier`, applied to a request; the
two pointers it captured are read when it runs, so their current contents are
arguments.  The returned error is always nil. -/
def getRequestModifier (vars : Vars) (canon : String → String)
    (commChannel : PFCommunication) (authToken : String) (req : Request) :
    Request × Option Error :=
  let host := "localhost:" ++ toString commChannel.LocalPort
  let h1 := Header.Set canon req.Header "Authorization" ("Bearer " ++ authToken)
  let h2 := Header.Set canon h1 "Content-Type" "application/json"
  let sub := Header.Get canon h2 vars.customHeaderName
  let h3 := if sub = "" then Header.Set canon h2 vars.customHeaderName vars.customHeaderValue
    else h2
  ({ req with Host := host, URL := { req.URL with Host := host }, Header := h3 }, none)

/-- What the outside world answers during one run of the startup hook.  The
answers of the tunnel transport depend on the tunnel that is asked for: the
namespace, the pod name and the remote port. -/
structure HookWorld where
  newK8sServiceErr : Option Error
  service : String → String → Except Error (Option Service)
  pods : Service → String → Except Error (List Pod)
  portForward : String → String → Int → PortForwardWorld
  secret : String → String → Except Error (Option Secret)
  now : Time
  tokenEndpoint : TokenEndpoint

/-- How a run of the hook ends: it returns nil, returns an error, or panics. -/
inductive Outcome where
  | ok
  | failed (e : Error)
  | panicked (msg : String)
deriving DecidableEq, Repr

/-- One recorded call of `PortForwardSVC`. -/
structure PortForwardCall where
  namespace_ : String
  podName : String
  port : Int
deriving DecidableEq, Repr

/-- Result of the hook: how it ended, the contents of the two shared
variables afterwards, and as ghost state the calls of `PortForwardSVC` it made
and the calls of `GetValidToken` it made. -/
structure HookResult where
  outcome : Outcome
  commChannel : PFCommunication
  authToken : String
  portForwardCalls : List PortForwardCall
  tokenCalls : List TokenCall

/-- A call `k8sSvc.PortForwardSVC(namespace, podName, port)` made by the hook:
the method runs against the transport answering for that very tunnel, and the
call is appended to the record `calls` of the calls made so far. -/
def callPortForwardSVC (w : HookWorld) (calls : List PortForwardCall)
    (namespace_ podName : String) (port : Int) : PortForwardResult × List PortForwardCall :=
  (PortForwardSVC (w.portForward namespace_ podName port) namespace_ podName port,
    calls ++ [{ namespace_ := namespace_, podName := podName, port := port }])

/-- The closure returned by `getHookFn`, run on the current contents of the two
shared variables. -/
def getHookFn (vars : Vars) (w : HookWorld) (commChannel : PFCommunication)
    (authToken : String) : HookResult :=
  match w.newK8sServiceErr with
  | some e =>
    { outcome := .failed e, commChannel := commChannel, authToken := authToken,
      portForwardCalls := [], tokenCalls := [] }
  | none =>
    match GetService (w.service vars.k8sNamespace vars.serviceName)
        vars.k8sNamespace vars.serviceName with
    | .error e =>
      { outcome := .failed e, commChannel := commChannel, authToken := authToken,
        portForwardCalls := [], tokenCalls := [] }
    | .ok svc =>
      match w.pods svc vars.k8sNamespace with
      | .error e =>
        { outcome := .failed e, commChannel := commChannel, authToken := authToken,
          portForwardCalls := [], tokenCalls := [] }
      | .ok [] =>
        { outcome := .failed ("no pods found for service " ++ vars.serviceName ++
            " in namespace " ++ vars.k8sNamespace),
          commChannel := commChannel, authToken := authToken,
          portForwardCalls := [], tokenCalls := [] }
      | .ok (pod0 :: _) =>
        let called := callPortForwardSVC w [] vars.k8sNamespace pod0.Name vars.servicePort
        let pf := called.1
        let calls := called.2
        match pf.err, pf.handle with
        | some e, _ =>
          { outcome := .failed e, commChannel := commChannel, authToken := authToken,
            portForwardCalls := calls, tokenCalls := [] }
        | none, none =>
          { outcome := .panicked "nil pointer dereference", commChannel := commChannel,
            authToken := authToken, portForwardCalls := calls, tokenCalls := [] }
        | none, some newChannel =>
          let secName := "keycloak-client-secret-" ++ vars.clientSecretID ++ "-" ++ vars.realmName
          match GetSecret (w.secret vars.k8sNamespace secName) vars.k8sNamespace secName with
          | .error e =>
            { outcome := .panicked ("failed to get secret " ++ secName ++ " in namespace " ++
                vars.k8sNamespace ++ ": " ++ e),
              commChannel := newChannel, authToken := authToken,
              portForwardCalls := calls, tokenCalls := [] }
          | .ok sec =>
            let keycloakTokenManager := NewKeycloakTokenManager
              { Credentials :=
                  { ClientID := sec.Data "CLIENT_ID", ClientSecret := sec.Data "CLIENT_SECRET" },
                TokenURL := vars.keycloakURL }
            let r := keycloakTokenManager.GetValidToken w.now w.tokenEndpoint
            match r.err with
            | some e =>
              { outcome := .failed e, commChannel := newChannel, authToken := authToken,
                portForwardCalls := calls, tokenCalls := [r] }
            | none =>
              { outcome := .ok, commChannel := newChannel, authToken := r.tok,
                portForwardCalls := calls, tokenCalls := [r] }

/-- A sequence of `GetValidToken` calls on one manager, each with its own clock
reading and its own answers of the token endpoint.  The result lists what each
call returned (token and error), then gives the manager afterwards and the
total number of HTTP exchanges. -/
def getValidTokenSeq : List (Time × TokenEndpoint) → KeycloakTokenManager →
    List (String × Option Error) × KeycloakTokenManager × Nat
  | [], m => ([], m, 0)
  | (now, w) :: rest, m =>
    let r := m.GetValidToken now w
    let s := getValidTokenSeq rest r.manager
    ((r.tok, r.err) :: s.1, s.2.1, r.exchanges + s.2.2)

/-! ## Sample inputs -/

/-- A sample client configuration. -/
def sampleConfig : KeycloakConfig :=
  { Credentials := { ClientID := "cli", ClientSecret := "s3cret" },
    TokenURL := "https://idp.example/token" }

/-- A sample decoder: it reads three fixed bodies and rejects every other. -/
def sampleDecode (body : String) : Except Error ResponseData :=
  if body = "abc/0" then .ok { AccessToken := "abc", ExpiresIn := 0 }
  else if body = "old/10" then .ok { AccessToken := "old", ExpiresIn := 10 }
  else if body = "new/10" then .ok { AccessToken := "new", ExpiresIn := 10 }
  else if body = "abc/9223372037" then .ok { AccessToken := "abc", ExpiresIn := 9223372037 }
  else .error "invalid character"

/-- A token endpoint answering with the given status and body at the given
time. -/
def sampleEndpoint (status : Int) (body : String) (fetchNow : Time) : TokenEndpoint :=
  { newRequestErr := none, doResult := .ok { StatusCode := status, Body := body },
    decode := sampleDecode, fetchNow := fetchNow }

/-- A manager holding the token `old` that expires at instant 10 seconds. -/
def sampleManager : KeycloakTokenManager :=
  { Config := sampleConfig, token := some { Raw := "old", Expiration := 10 * Second } }

/-- Sample values of the package-level variables. -/
def sampleVars : Vars :=
  { k8sNamespace := "prod", serviceName := "things", servicePort := 8080,
    clientSecretID := "cli", realmName := "main", keycloakURL := "https://idp.example/token",
    customHeaderName := "X-Tenant", customHeaderValue := "default" }

/-- A transport in which every setup call succeeds, the given event fires
first in the `select`, the given events follow, and nothing is written to the
output buffers. -/
def samplePortForward (first : SelectEvent) (later : List SelectEvent) : PortForwardWorld :=
  { roundTripperErr := none, freePort := .ok 40123, forwarderErr := none,
    firstEvent := first, laterEvents := later, errOut := "", out := "" }

/-- A cluster in which the service selects the given pods, a tunnel to the pod
`pod-a` becomes ready in time on local port 40123 while a tunnel to any other
pod is not ready before the deadline, the secret exists, and the token
endpoint hands out the token `old` for 10 seconds at instant 0. -/
def sampleHookWorld (pods : List Pod) : HookWorld :=
  { newK8sServiceErr := none,
    service := fun _ _ => .ok (some { Selector := [("app", "things")] }),
    pods := fun _ _ => .ok pods,
    portForward := fun _ podName _ =>
      if podName = "pod-a" then samplePortForward .ready [] else samplePortForward .deadline [],
    secret := fun _ _ => .ok (some
      { Data := fun k => if k = "CLIENT_ID" then "cli" else if k = "CLIENT_SECRET" then "s3cret"
          else "" }),
    now := 0,
    tokenEndpoint := sampleEndpoint 200 "old/10" 0 }

/-- The manager the hook builds in `sampleHookWorld`, after its call of
`GetValidToken`. -/
def sampleHookManager : KeycloakTokenManager :=
  { Config :=
      { Credentials := { ClientID := "cli", ClientSecret := "s3cret" },
        TokenURL := "https://idp.example/token" },
    token := some { Raw := "old", Expiration := 10 * Second } }

/-- A sample outgoing request carrying the given values under `X-Tenant`
(`none`: the header is absent) and one `Accept` header. -/
def sampleRequest (tenant : Option (List String)) : Request :=
  { Method := "GET",
    URL := { Scheme := "http", Host := "localhost:8080", Path := "/things", RawQuery := "limit=5" },
    Host := "localhost:8080",
    Header := fun k => if k = "X-Tenant" then tenant else if k = "Accept" then some ["*/*"]
      else none,
    Body := "" }

/-- The handle `PortForwardSVC` returns in `samplePortForward .ready []`. -/
def sampleHandle : PFCommunication :=
  { stopChan := some (makeChan 1), startChan := some (makeChan 1), LocalPort := 40123 }

/-- The invariant of a stop channel made by `PortForwardSVC`: capacity 1, at
most one signal queued, at most one received, and every signal sent is either
queued or received. -/
def StopChanOk (c : Chan) : Prop :=
  c.cap = 1 ∧ c.queued ≤ 1 ∧ c.received ≤ 1 ∧ c.queued + c.received = c.sent

/-! ## Lemmas -/

theorem wrapInt64_of_range (x : Int) (hlo : -9223372036854775808 ≤ x)
    (hhi : x < 9223372036854775808) : wrapInt64 x = x := by
  unfold wrapInt64
  rw [Int.emod_eq_of_lt (by omega) (by omega)]
  omega

theorem secondsToDuration_of_range (n : Int) (hlo : -9223372036 ≤ n) (hhi : n ≤ 9223372036) :
    secondsToDuration n = n * Second := by
  unfold secondsToDuration Second
  rw [wrapInt64_of_range n (by omega) (by omega)]
  exact wrapInt64_of_range _ (by omega) (by omega)

theorem GetValidToken_of_invalid (m : KeycloakTokenManager) (now : Time) (w : TokenEndpoint)
    (h : KeycloakToken.IsValid now m.token = false) :
    m.GetValidToken now w = m.fetchAndStoreToken w := by
  unfold KeycloakTokenManager.GetValidToken
  cases hm : m.token with
  | none => rfl
  | some t =>
    rw [hm] at h
    simp [h]

theorem GetValidToken_of_valid (m : KeycloakTokenManager) (t : KeycloakToken) (now : Time)
    (w : TokenEndpoint) (hm : m.token = some t) (h : now < t.Expiration) :
    m.GetValidToken now w =
      { tok := t.Raw, err := none, manager := m, fetches := 0, exchanges := 0 } := by
  unfold KeycloakTokenManager.GetValidToken
  simp [hm, KeycloakToken.IsValid, Time.After, h]

theorem bearer_ne_empty (tok : String) : "Bearer " ++ tok ≠ "" := by
  intro h
  have hlen : ("Bearer " ++ tok).length = 0 := by rw [h]; rfl
  rw [String.length_append] at hlen
  have h7 : "Bearer ".length = 7 := by decide
  omega

/-- When the hook returns nil, every step before succeeded: the result is the
one built on the last line of the closure. -/
theorem getHookFn_ok (vars : Vars) (w : HookWorld) (commChannel : PFCommunication)
    (authToken : String) (hok : (getHookFn vars w commChannel authToken).outcome = Outcome.ok) :
    ∃ (sec : Secret) (pod0 : Pod) (newChannel : PFCommunication),
      (PortForwardSVC (w.portForward vars.k8sNamespace pod0.Name vars.servicePort)
          vars.k8sNamespace pod0.Name vars.servicePort).handle =
        some newChannel ∧
      getHookFn vars w commChannel authToken =
        { outcome := Outcome.ok, commChannel := newChannel,
          authToken := ((NewKeycloakTokenManager
            { Credentials :=
                { ClientID := sec.Data "CLIENT_ID", ClientSecret := sec.Data "CLIENT_SECRET" },
              TokenURL := vars.keycloakURL }).GetValidToken w.now w.tokenEndpoint).tok,
          portForwardCalls :=
            [{ namespace_ := vars.k8sNamespace, podName := pod0.Name, port := vars.servicePort }],
          tokenCalls := [(NewKeycloakTokenManager
            { Credentials :=
                { ClientID := sec.Data "CLIENT_ID", ClientSecret := sec.Data "CLIENT_SECRET" },
              TokenURL := vars.keycloakURL }).GetValidToken w.now w.tokenEndpoint] } ∧
      ((NewKeycloakTokenManager
        { Credentials :=
            { ClientID := sec.Data "CLIENT_ID", ClientSecret := sec.Data "CLIENT_SECRET" },
          TokenURL := vars.keycloakURL }).GetValidToken w.now w.tokenEndpoint).err = none := by
  cases h1 : w.newK8sServiceErr with
  | some e => simp [getHookFn, h1] at hok
  | none =>
    cases h2 : GetService (w.service vars.k8sNamespace vars.serviceName)
        vars.k8sNamespace vars.serviceName with
    | error e => simp [getHookFn, h1, h2] at hok
    | ok svc =>
      cases h3 : w.pods svc vars.k8sNamespace with
      | error e => simp [getHookFn, h1, h2, h3] at hok
      | ok pods =>
        cases pods with
        | nil => simp [getHookFn, h1, h2, h3] at hok
        | cons pod0 rest =>
          cases h4 : (PortForwardSVC (w.portForward vars.k8sNamespace pod0.Name vars.servicePort)
          vars.k8sNamespace pod0.Name
              vars.servicePort).err with
          | some e => simp [getHookFn, callPortForwardSVC, h1, h2, h3, h4] at hok
          | none =>
            cases h5 : (PortForwardSVC (w.portForward vars.k8sNamespace pod0.Name vars.servicePort)
          vars.k8sNamespace pod0.Name
                vars.servicePort).handle with
            | none => simp [getHookFn, callPortForwardSVC, h1, h2, h3, h4, h5] at hok
            | some newChannel =>
              cases h6 : GetSecret
                  (w.secret vars.k8sNamespace
                    ("keycloak-client-secret-" ++ vars.clientSecretID ++ "-" ++ vars.realmName))
                  vars.k8sNamespace
                  ("keycloak-client-secret-" ++ vars.clientSecretID ++ "-" ++ vars.realmName) with
              | error e => simp [getHookFn, callPortForwardSVC, h1, h2, h3, h4, h5, h6] at hok
              | ok sec =>
                cases h7 : ((NewKeycloakTokenManager
                    { Credentials :=
                        { ClientID := sec.Data "CLIENT_ID",
                          ClientSecret := sec.Data "CLIENT_SECRET" },
                      TokenURL := vars.keycloakURL }).GetValidToken w.now w.tokenEndpoint).err with
                | some e => simp [getHookFn, callPortForwardSVC, h1, h2, h3, h4, h5, h6, h7] at hok
                | none =>
                  refine ⟨sec, pod0, newChannel, h5, ?_, h7⟩
                  simp [getHookFn, callPortForwardSVC, h1, h2, h3, h4, h5, h6, h7]

theorem PortForwardSVC_handle (w : PortForwardWorld) (namespace_ podName : String) (port : Int)
    (pf : PFCommunication) (h : (PortForwardSVC w namespace_ podName port).handle = some pf) :
    pf.stopChan = some (makeChan 1) ∧ pf.startChan = some (makeChan 1) := by
  unfold PortForwardSVC at h
  simp only at h
  split at h
  · simp at h
  · split at h
    · simp at h
    · split at h
      · simp at h
      · split at h
        · split at h
          · simp at h
          · simp only [Option.some.injEq] at h
            subst h
            exact ⟨rfl, rfl⟩
        · simp at h

theorem forwarderReceive_inv (pf : PFCommunication) (c : Chan) (hc : pf.stopChan = some c)
    (hok : StopChanOk c) :
    ∃ c1, (forwarderReceive pf).stopChan = some c1 ∧ StopChanOk c1 ∧ c1.sent = c.sent := by
  obtain ⟨hcap, hq, hr, hsum⟩ := hok
  unfold forwarderReceive
  simp only [hc]
  by_cases h0 : c.received = 0
  · by_cases hq0 : 0 < c.queued
    · refine ⟨{ c with queued := c.queued - 1, received := c.received + 1 }, ?_, ?_, rfl⟩
      · simp [h0, Chan.recv, hq0]
      · refine ⟨hcap, ?_, ?_, ?_⟩ <;> simp only <;> omega
    · exact ⟨c, by simp [h0, Chan.recv, hq0, hc], ⟨hcap, hq, hr, hsum⟩, rfl⟩
  · exact ⟨c, by simp [h0, hc], ⟨hcap, hq, hr, hsum⟩, rfl⟩

theorem Close_cases (pf : PFCommunication) (c : Chan) (hc : pf.stopChan = some c)
    (hok : StopChanOk c) :
    (pf.Close = .blocked ∧ c.queued = 1) ∨
    (∃ pf2 c2, pf.Close = .returned pf2 ∧ pf2.stopChan = some c2 ∧ StopChanOk c2 ∧
      c2.sent = c.sent + 1 ∧ c.queued = 0) := by
  obtain ⟨hcap, hq, hr, hsum⟩ := hok
  unfold PFCommunication.Close
  simp only [hc]
  by_cases hlt : c.queued < c.cap
  · right
    refine ⟨{ pf with stopChan := some { c with queued := c.queued + 1, sent := c.sent + 1 } },
      { c with queued := c.queued + 1, sent := c.sent + 1 }, ?_, rfl, ?_, rfl, by omega⟩
    · simp [Chan.send, hlt]
    · refine ⟨hcap, ?_, hr, ?_⟩ <;> simp only <;> omega
  · left
    exact ⟨by simp [Chan.send, hlt], by omega⟩

theorem closeTimes_inv (schedule : List Bool) :
    ∀ (pf : PFCommunication) (c : Chan), pf.stopChan = some c → StopChanOk c →
      ∃ c1, (closeTimes schedule pf).2.1.stopChan = some c1 ∧ StopChanOk c1 ∧
        c1.sent = c.sent + (closeTimes schedule pf).1 ∧
        ((closeTimes schedule pf).2.2 = false → (closeTimes schedule pf).1 = schedule.length) := by
  induction schedule with
  | nil =>
    intro pf c hc hok
    exact ⟨c, hc, hok, rfl, fun _ => rfl⟩
  | cons b rest ih =>
    intro pf c hc hok
    have hpf1 : ∃ c1, (if b = true then forwarderReceive pf else pf).stopChan = some c1 ∧
        StopChanOk c1 ∧ c1.sent = c.sent := by
      cases b with
      | true => simpa using forwarderReceive_inv pf c hc hok
      | false => exact ⟨c, by simpa using hc, hok, rfl⟩
    obtain ⟨c1, hc1, hok1, hs1⟩ := hpf1
    rcases Close_cases _ c1 hc1 hok1 with ⟨hb, _⟩ | ⟨pf2, c2, hret, hc2, hok2, hs2, _⟩
    · refine ⟨c1, ?_, hok1, ?_, ?_⟩
      · simp [closeTimes, hb, hc1]
      · simp [closeTimes, hb, hs1]
      · simp [closeTimes, hb]
    · obtain ⟨c3, hc3, hok3, hs3, hlen⟩ := ih pf2 c2 hc2 hok2
      refine ⟨c3, ?_, hok3, ?_, ?_⟩
      · simp [closeTimes, hret, hc3]
      · simp only [closeTimes, hret]
        omega
      · intro hnb
        simp only [closeTimes, hret] at hnb ⊢
        simp [hlen hnb]

/-! ## Claims on the credential manager -/

/-- C1: with the clock reading `now` given, `IsValid` answers true exactly when
the token is not nil and its expiration is strictly after `now`; a token that
expires at `now` or `d` nanoseconds before `now` is invalid, and so is the nil
token. -/
theorem C1_IsValid_iff (now : Time) (token : Option KeycloakToken) :
    (KeycloakToken.IsValid now token = true ↔ ∃ t, token = some t ∧ now < t.Expiration) ∧
    (∀ raw : String, KeycloakToken.IsValid now (some { Raw := raw, Expiration := now }) = false) ∧
    (∀ (raw : String) (d : Nat),
      KeycloakToken.IsValid now (some { Raw := raw, Expiration := now - d }) = false) ∧
    KeycloakToken.IsValid now none = false := by
  refine ⟨?_, ?_, ?_, rfl⟩
  · cases token with
    | none => simp [KeycloakToken.IsValid]
    | some t => simp [KeycloakToken.IsValid, Time.After]
  · intro raw
    simp [KeycloakToken.IsValid, Time.After]
  · intro raw d
    simp [KeycloakToken.IsValid, Time.After]

/-- C2: when the manager holds the token `t`, every `GetValidToken` call made
at a time strictly before the expiration of `t` returns the raw string of `t`
with a nil error, does not enter `fetchAndStoreToken`, performs no exchange and
leaves the manager as it was; and over any finite sequence of calls all made
strictly before that expiration, every call returns that same token, the
manager is unchanged and the number of exchanges is zero. -/
theorem C2_GetValidToken_cached (m : KeycloakTokenManager) (t : KeycloakToken)
    (hm : m.token = some t) :
    (∀ (now : Time) (w : TokenEndpoint), KeycloakToken.IsValid now m.token = true →
      (m.GetValidToken now w).tok = t.Raw ∧ (m.GetValidToken now w).err = none ∧
      (m.GetValidToken now w).fetches = 0 ∧ (m.GetValidToken now w).exchanges = 0 ∧
      (m.GetValidToken now w).manager = m) ∧
    (∀ calls : List (Time × TokenEndpoint), (∀ c ∈ calls, c.1 < t.Expiration) →
      getValidTokenSeq calls m = (List.replicate calls.length (t.Raw, none), m, 0)) := by
  constructor
  · intro now w hv
    have hlt : now < t.Expiration := by
      simpa [hm, KeycloakToken.IsValid, Time.After] using hv
    rw [GetValidToken_of_valid m t now w hm hlt]
    exact ⟨rfl, rfl, rfl, rfl, rfl⟩
  · intro calls
    induction calls with
    | nil => intro _; rfl
    | cons c rest ih =>
      intro hall
      obtain ⟨now, w⟩ := c
      have hlt : now < t.Expiration := hall (now, w) (List.mem_cons_self _ _)
      have hrest := ih (fun c hc => hall c (List.mem_cons_of_mem _ hc))
      simp only [getValidTokenSeq, GetValidToken_of_valid m t now w hm hlt, hrest,
        List.length_cons, List.replicate_succ, Nat.zero_add]

/-- C2, at a sample input: three calls at instants 1, 5 and 9 seconds on a
manager whose token expires at 10 seconds, against an endpoint that would hand
out another token. -/
theorem C2_GetValidToken_cached_witness :
    getValidTokenSeq
      [(1 * Second, sampleEndpoint 200 "new/10" 1), (5 * Second, sampleEndpoint 200 "new/10" 5),
        (9 * Second, sampleEndpoint 500 "down" 9)] sampleManager =
      ([("old", none), ("old", none), ("old", none)], sampleManager, 0) :=
  (C2_GetValidToken_cached sampleManager { Raw := "old", Expiration := 10 * Second } rfl).2
    _ (by decide)

/-- C3 as stated fails: for the decodable answer `access_token = "abc"`,
`expires_in = 9223372037` fetched at instant 0 by a manager holding no token,
the product `time.Duration(9223372037) * time.Second` wraps, and the stored
expiration is 9223372036709551616 nanoseconds before the fetch instead of
9223372037 seconds after it. -/
theorem C3_expiration_wraps :
    KeycloakToken.IsValid 0 (NewKeycloakTokenManager sampleConfig).token = false ∧
    (sampleEndpoint 200 "abc/9223372037" 0).decode "abc/9223372037" =
      .ok { AccessToken := "abc", ExpiresIn := 9223372037 } ∧
    ((NewKeycloakTokenManager sampleConfig).GetValidToken 0
        (sampleEndpoint 200 "abc/9223372037" 0)).manager.token =
      some { Raw := "abc", Expiration := -9223372036709551616 } ∧
    ((NewKeycloakTokenManager sampleConfig).GetValidToken 0
        (sampleEndpoint 200 "abc/9223372037" 0)).manager.token ≠
      some { Raw := "abc", Expiration := 0 + 9223372037 * Second } := by
  refine ⟨by decide, by rfl, by decide, by decide⟩

/-- C3, amended: when the held token is absent or invalid and the exchange
answers with status 200 and a body that decodes to `access_token = a`,
`expires_in = n` with `-9223372036 ≤ n ≤ 9223372036`, the call returns `a`
with a nil error after one exchange, and the manager afterwards holds the
token with raw string `a` and expiration `fetchNow + n` seconds; when `n = 0`
that token is invalid at every instant from `fetchNow` on. -/
theorem C3_fetch_stores_token (m : KeycloakTokenManager) (now : Time) (w : TokenEndpoint)
    (resp : HttpResponse) (a : String) (n : Int)
    (hinvalid : KeycloakToken.IsValid now m.token = false)
    (hreq : w.newRequestErr = none) (hdo : w.doResult = .ok resp)
    (hstatus : resp.StatusCode = StatusOK)
    (hdecode : w.decode resp.Body = .ok { AccessToken := a, ExpiresIn := n })
    (hlo : -9223372036 ≤ n) (hhi : n ≤ 9223372036) :
    (m.GetValidToken now w).tok = a ∧ (m.GetValidToken now w).err = none ∧
    (m.GetValidToken now w).exchanges = 1 ∧
    (m.GetValidToken now w).manager =
      { Config := m.Config, token := some { Raw := a, Expiration := w.fetchNow + n * Second } } ∧
    (n = 0 → ∀ t : Time, w.fetchNow ≤ t →
      KeycloakToken.IsValid t (m.GetValidToken now w).manager.token = false) := by
  rw [GetValidToken_of_invalid m now w hinvalid]
  have hfetch : m.fetchAndStoreToken w =
      { tok := a, err := none,
        manager :=
          { Config := m.Config, token := some { Raw := a, Expiration := w.fetchNow + n * Second } },
        fetches := 1, exchanges := 1 } := by
    unfold KeycloakTokenManager.fetchAndStoreToken
    simp [hreq, hdo, hstatus, hdecode, Time.Add, secondsToDuration_of_range n hlo hhi]
  rw [hfetch]
  refine ⟨rfl, rfl, rfl, rfl, ?_⟩
  intro hn t ht
  subst hn
  simp [KeycloakToken.IsValid, Time.After, ht]

/-- C3, amended, at a sample input: the answer `access_token = "abc"`,
`expires_in = 0` fetched at instant 7 by a manager holding no token, checked
at instants 7 and 8. -/
theorem C3_fetch_stores_token_witness :
    ((NewKeycloakTokenManager sampleConfig).GetValidToken 3 (sampleEndpoint 200 "abc/0" 7)).tok
      = "abc" ∧
    ((NewKeycloakTokenManager sampleConfig).GetValidToken 3 (sampleEndpoint 200 "abc/0" 7)).manager
      = { Config := sampleConfig, token := some { Raw := "abc", Expiration := 7 + 0 * Second } } ∧
    KeycloakToken.IsValid 7 ((NewKeycloakTokenManager sampleConfig).GetValidToken 3
      (sampleEndpoint 200 "abc/0" 7)).manager.token = false ∧
    KeycloakToken.IsValid 8 ((NewKeycloakTokenManager sampleConfig).GetValidToken 3
      (sampleEndpoint 200 "abc/0" 7)).manager.token = false :=
  have h := C3_fetch_stores_token (NewKeycloakTokenManager sampleConfig) 3
    (sampleEndpoint 200 "abc/0" 7) { StatusCode := 200, Body := "abc/0" } "abc" 0
    rfl rfl rfl rfl (by rfl) (by decide) (by decide)
  ⟨h.1, h.2.2.2.1, h.2.2.2.2 rfl 7 (by decide), h.2.2.2.2 rfl 8 (by decide)⟩

/-- C4: when the held token is absent or invalid and the token endpoint
answers with the response `resp`, the call returns an error exactly when the
status is not 200 or the status is 200 and the body fails to decode; whenever
it returns an error the returned token is the empty string; and for every
status other than 200 the error message is `failed to get token: ` followed by
the response body. -/
theorem C4_fetch_errors (m : KeycloakTokenManager) (now : Time) (w : TokenEndpoint)
    (resp : HttpResponse)
    (hinvalid : KeycloakToken.IsValid now m.token = false)
    (hreq : w.newRequestErr = none) (hdo : w.doResult = .ok resp) :
    ((m.GetValidToken now w).err ≠ none ↔
      (resp.StatusCode ≠ StatusOK ∨
        (resp.StatusCode = StatusOK ∧ ∃ e, w.decode resp.Body = .error e))) ∧
    ((m.GetValidToken now w).err ≠ none → (m.GetValidToken now w).tok = "") ∧
    (resp.StatusCode ≠ StatusOK →
      (m.GetValidToken now w).err = some ("failed to get token: " ++ resp.Body)) := by
  rw [GetValidToken_of_invalid m now w hinvalid]
  unfold KeycloakTokenManager.fetchAndStoreToken
  simp only [hreq, hdo]
  by_cases hs : resp.StatusCode = StatusOK
  · cases hd : w.decode resp.Body with
    | error e => simp [hs]
    | ok d => simp [hs]
  · simp [hs]

/-- C4, at a sample input: status 503 with body `upstream down`, and status 200
with a body the decoder rejects. -/
theorem C4_fetch_errors_witness :
    ((NewKeycloakTokenManager sampleConfig).GetValidToken 0
        (sampleEndpoint 503 "upstream down" 0)).err =
      some "failed to get token: upstream down" ∧
    ((NewKeycloakTokenManager sampleConfig).GetValidToken 0
        (sampleEndpoint 200 "<html>" 0)).err ≠ none :=
  ⟨(C4_fetch_errors (NewKeycloakTokenManager sampleConfig) 0
      (sampleEndpoint 503 "upstream down" 0) { StatusCode := 503, Body := "upstream down" }
      rfl rfl rfl).2.2 (by decide),
   (C4_fetch_errors (NewKeycloakTokenManager sampleConfig) 0
      (sampleEndpoint 200 "<html>" 0) { StatusCode := 200, Body := "<html>" }
      rfl rfl rfl).1.mpr (Or.inr ⟨rfl, "invalid character", by rfl⟩)⟩

/-! ## Claims on the request rewriter -/

/-- C6 as stated fails: a request that carries the custom header with the
empty string as its value has that value replaced by the default. -/
theorem C6_empty_value_replaced :
    (sampleRequest (some [""])).Header (id sampleVars.customHeaderName) = some [""] ∧
    (getRequestModifier sampleVars id sampleHandle "tok" (sampleRequest (some [""]))).1.Header
      (id sampleVars.customHeaderName) = some ["default"] ∧
    (getRequestModifier sampleVars id sampleHandle "tok" (sampleRequest (some [""]))).1.Header
      (id sampleVars.customHeaderName) ≠
      (sampleRequest (some [""])).Header (id sampleVars.customHeaderName) := by
  decide

/-- C6, amended: for a custom header other than the two headers the rewriter
sets, if the first value the request carries under the custom header is not
the empty string, the values under that header after rewriting are exactly
those before; the default value is written exactly when that first value is
empty or missing, which is the case when the request does not carry the header
and also when it carries it with no value or with an empty first value. -/
theorem C6_custom_header (vars : Vars) (canon : String → String)
    (commChannel : PFCommunication) (authToken : String) (req : Request)
    (hauth : canon vars.customHeaderName ≠ canon "Authorization")
    (hctype : canon vars.customHeaderName ≠ canon "Content-Type") :
    (Header.Get canon req.Header vars.customHeaderName ≠ "" →
      (getRequestModifier vars canon commChannel authToken req).1.Header
        (canon vars.customHeaderName) = req.Header (canon vars.customHeaderName)) ∧
    (Header.Get canon req.Header vars.customHeaderName = "" →
      (getRequestModifier vars canon commChannel authToken req).1.Header
        (canon vars.customHeaderName) = some [vars.customHeaderValue]) ∧
    (req.Header (canon vars.customHeaderName) = none →
      (getRequestModifier vars canon commChannel authToken req).1.Header
        (canon vars.customHeaderName) = some [vars.customHeaderValue]) := by
  have hget : Header.Get canon
      (Header.Set canon (Header.Set canon req.Header "Authorization" ("Bearer " ++ authToken))
        "Content-Type" "application/json") vars.customHeaderName =
      Header.Get canon req.Header vars.customHeaderName := by
    simp [Header.Get, Header.Set, hauth, hctype]
  have hnone : req.Header (canon vars.customHeaderName) = none →
      Header.Get canon req.Header vars.customHeaderName = "" := by
    intro h
    simp [Header.Get, h]
  have hempty : Header.Get canon req.Header vars.customHeaderName = "" →
      (getRequestModifier vars canon commChannel authToken req).1.Header
        (canon vars.customHeaderName) = some [vars.customHeaderValue] := by
    intro h
    simp [getRequestModifier, hget, h, Header.Set]
  refine ⟨?_, hempty, fun h => hempty (hnone h)⟩
  intro h
  simp [getRequestModifier, hget, h, Header.Set, hauth, hctype]

/-- C6, amended, at a sample input: a request carrying `X-Tenant: acme` keeps
it, and a request without `X-Tenant` gets the default. -/
theorem C6_custom_header_witness :
    (getRequestModifier sampleVars id sampleHandle "tok" (sampleRequest (some ["acme"]))).1.Header
      (id sampleVars.customHeaderName) = some ["acme"] ∧
    (getRequestModifier sampleVars id sampleHandle "tok" (sampleRequest none)).1.Header
      (id sampleVars.customHeaderName) = some ["default"] :=
  ⟨(C6_custom_header sampleVars id sampleHandle "tok" (sampleRequest (some ["acme"]))
      (by decide) (by decide)).1 (by decide),
   (C6_custom_header sampleVars id sampleHandle "tok" (sampleRequest none)
      (by decide) (by decide)).2.2 (by decide)⟩

/-- C7: for every request and every tunnel handle with local port `p`, after
rewriting both `req.Host` and `req.URL.Host` are `localhost:` followed by `p`
in decimal, `Content-Type` reads `application/json`, the returned error is nil,
and the method, the URL scheme, path and query, the body, and every header
other than `Authorization`, `Content-Type` and the custom header are as they
were before the call. -/
theorem C7_rewrite_frame (vars : Vars) (canon : String → String)
    (commChannel : PFCommunication) (authToken : String) (req : Request) :
    (getRequestModifier vars canon commChannel authToken req).1.Host =
      "localhost:" ++ toString commChannel.LocalPort ∧
    (getRequestModifier vars canon commChannel authToken req).1.URL.Host =
      "localhost:" ++ toString commChannel.LocalPort ∧
    Header.Get canon (getRequestModifier vars canon commChannel authToken req).1.Header
      "Content-Type" = "application/json" ∧
    (getRequestModifier vars canon commChannel authToken req).2 = none ∧
    (getRequestModifier vars canon commChannel authToken req).1.Method = req.Method ∧
    (getRequestModifier vars canon commChannel authToken req).1.URL.Scheme = req.URL.Scheme ∧
    (getRequestModifier vars canon commChannel authToken req).1.URL.Path = req.URL.Path ∧
    (getRequestModifier vars canon commChannel authToken req).1.URL.RawQuery = req.URL.RawQuery ∧
    (getRequestModifier vars canon commChannel authToken req).1.Body = req.Body ∧
    (∀ k : String, k ≠ canon "Authorization" → k ≠ canon "Content-Type" →
      k ≠ canon vars.customHeaderName →
      (getRequestModifier vars canon commChannel authToken req).1.Header k = req.Header k) := by
  refine ⟨rfl, rfl, ?_, rfl, rfl, rfl, rfl, rfl, rfl, ?_⟩
  · simp only [getRequestModifier]
    split
    · rename_i hsub
      by_cases hk : canon "Content-Type" = canon vars.customHeaderName
      · simp [Header.Get, Header.Set, hk] at hsub
      · simp [Header.Get, Header.Set, hk]
    · simp [Header.Get, Header.Set]
  · intro k hka hkc hkx
    simp only [getRequestModifier]
    split <;> simp [Header.Set, hka, hkc, hkx]

/-- C7, at a sample input: the sample request rewritten for the tunnel on
local port 40123 keeps its `Accept` header. -/
theorem C7_rewrite_frame_witness :
    (getRequestModifier sampleVars id sampleHandle "tok" (sampleRequest none)).1.Host =
      "localhost:40123" ∧
    (getRequestModifier sampleVars id sampleHandle "tok" (sampleRequest none)).1.Header "Accept" =
      some ["*/*"] :=
  ⟨(C7_rewrite_frame sampleVars id sampleHandle "tok" (sampleRequest none)).1,
   (C7_rewrite_frame sampleVars id sampleHandle "tok" (sampleRequest none)).2.2.2.2.2.2.2.2.2
      "Accept" (by decide) (by decide) (by decide)⟩

/-- C5 as stated fails: the hook ran at instant 0 and published the token
`old`, which expires at 10 seconds; a request rewritten at 20 seconds still
gets `Bearer old`, although that token is no longer valid at 20 seconds and
`GetValidToken` on the manager of the hook would at that time refresh and
yield `new`. -/
theorem C5_stale_token_attached :
    (getHookFn sampleVars (sampleHookWorld [{ Name := "pod-a" }]) PFCommunication.zero "").outcome
      = Outcome.ok ∧
    (getHookFn sampleVars (sampleHookWorld [{ Name := "pod-a" }])
      PFCommunication.zero "").tokenCalls.map (fun r => r.manager) = [sampleHookManager] ∧
    Header.Get id
      (getRequestModifier sampleVars id
        (getHookFn sampleVars (sampleHookWorld [{ Name := "pod-a" }])
          PFCommunication.zero "").commChannel
        (getHookFn sampleVars (sampleHookWorld [{ Name := "pod-a" }])
          PFCommunication.zero "").authToken
        (sampleRequest none)).1.Header "Authorization" = "Bearer old" ∧
    KeycloakToken.IsValid (20 * Second) sampleHookManager.token = false ∧
    (sampleHookManager.GetValidToken (20 * Second)
      (sampleEndpoint 200 "new/10" (20 * Second))).tok = "new" := by
  refine ⟨by decide, by decide, by decide, by decide, by decide⟩

/-- C5, amended: when the startup hook has run and returned nil, the token it
published is the one its single `GetValidToken` call returned at startup, on a
manager built by the hook; and every request rewritten afterwards, at whatever
time, gets `Authorization` set to `Bearer ` followed by that published token.
The rewriter reads neither the clock nor the credential manager, so it does
not refresh the token and does not check its expiration. -/
theorem C5_authorization_header (vars : Vars) (canon : String → String) (w : HookWorld)
    (commChannel : PFCommunication) (authToken : String)
    (hcanon : canon "Authorization" ≠ canon "Content-Type")
    (hok : (getHookFn vars w commChannel authToken).outcome = Outcome.ok) :
    (∃ config : KeycloakConfig,
      (getHookFn vars w commChannel authToken).tokenCalls =
        [(NewKeycloakTokenManager config).GetValidToken w.now w.tokenEndpoint] ∧
      (getHookFn vars w commChannel authToken).authToken =
        ((NewKeycloakTokenManager config).GetValidToken w.now w.tokenEndpoint).tok) ∧
    (∀ req : Request,
      Header.Get canon
        (getRequestModifier vars canon (getHookFn vars w commChannel authToken).commChannel
          (getHookFn vars w commChannel authToken).authToken req).1.Header "Authorization" =
        "Bearer " ++ (getHookFn vars w commChannel authToken).authToken) := by
  constructor
  · obtain ⟨sec, _, _, _, hr, _⟩ := getHookFn_ok vars w commChannel authToken hok
    rw [hr]
    exact ⟨_, rfl, rfl⟩
  · intro req
    generalize (getHookFn vars w commChannel authToken).authToken = tok
    generalize (getHookFn vars w commChannel authToken).commChannel = ch
    simp only [getRequestModifier]
    split
    · rename_i hsub
      by_cases hk : canon "Authorization" = canon vars.customHeaderName
      · simp [Header.Get, Header.Set, hk.symm, hcanon] at hsub
        exact absurd hsub (bearer_ne_empty tok)
      · simp [Header.Get, Header.Set, hk, hcanon]
    · simp [Header.Get, Header.Set, hcanon]

/-- C5, amended, at a sample input: the hook of `sampleHookWorld` followed by
one rewritten request. -/
theorem C5_authorization_header_witness :
    Header.Get id
      (getRequestModifier sampleVars id
        (getHookFn sampleVars (sampleHookWorld [{ Name := "pod-a" }])
          PFCommunication.zero "").commChannel
        (getHookFn sampleVars (sampleHookWorld [{ Name := "pod-a" }])
          PFCommunication.zero "").authToken
        (sampleRequest (some ["acme"]))).1.Header "Authorization" =
      "Bearer " ++ (getHookFn sampleVars (sampleHookWorld [{ Name := "pod-a" }])
        PFCommunication.zero "").authToken :=
  (C5_authorization_header sampleVars id (sampleHookWorld [{ Name := "pod-a" }])
    PFCommunication.zero "" (by decide) (by decide)).2 (sampleRequest (some ["acme"]))

/-! ## Claims on the startup hook and the tunnel -/

/-- C8: when the service lookup succeeds and the selector query returns the
pod list `pods`: if the list is empty the hook returns the error
`no pods found for service <service> in namespace <namespace>`, makes no call
of `PortForwardSVC`, and leaves the communication handle (hence its started
flag) and the token as they were; if the list is not empty the hook calls
`PortForwardSVC` exactly once, with the namespace, the name of the pod at
index 0 and the service port, and what that one call answers decides the run:
its error is the error of the hook and leaves the shared variables as they
were, its handle is the handle the hook publishes; the whole run is the same
as with the list cut down to its first pod. -/
theorem C8_hook_pods (vars : Vars) (w : HookWorld) (commChannel : PFCommunication)
    (authToken : String) (svc : Service) (pods : List Pod)
    (hnew : w.newK8sServiceErr = none)
    (hsvc : GetService (w.service vars.k8sNamespace vars.serviceName)
      vars.k8sNamespace vars.serviceName = .ok svc)
    (hpods : w.pods svc vars.k8sNamespace = .ok pods) :
    (pods = [] →
      (getHookFn vars w commChannel authToken).outcome =
        Outcome.failed ("no pods found for service " ++ vars.serviceName ++ " in namespace " ++
          vars.k8sNamespace) ∧
      (getHookFn vars w commChannel authToken).portForwardCalls = [] ∧
      (getHookFn vars w commChannel authToken).commChannel = commChannel ∧
      (getHookFn vars w commChannel authToken).commChannel.IsStarted = commChannel.IsStarted ∧
      (getHookFn vars w commChannel authToken).authToken = authToken) ∧
    (∀ (pod0 : Pod) (rest : List Pod), pods = pod0 :: rest →
      (getHookFn vars w commChannel authToken).portForwardCalls =
        [{ namespace_ := vars.k8sNamespace, podName := pod0.Name, port := vars.servicePort }] ∧
      (∀ e : Error,
        (PortForwardSVC (w.portForward vars.k8sNamespace pod0.Name vars.servicePort)
          vars.k8sNamespace pod0.Name vars.servicePort).err = some e →
        (getHookFn vars w commChannel authToken).outcome = Outcome.failed e ∧
        (getHookFn vars w commChannel authToken).commChannel = commChannel ∧
        (getHookFn vars w commChannel authToken).authToken = authToken ∧
        (getHookFn vars w commChannel authToken).tokenCalls = []) ∧
      (∀ newChannel : PFCommunication,
        (PortForwardSVC (w.portForward vars.k8sNamespace pod0.Name vars.servicePort)
          vars.k8sNamespace pod0.Name vars.servicePort).err = none →
        (PortForwardSVC (w.portForward vars.k8sNamespace pod0.Name vars.servicePort)
          vars.k8sNamespace pod0.Name vars.servicePort).handle = some newChannel →
        (getHookFn vars w commChannel authToken).commChannel = newChannel) ∧
      getHookFn vars w commChannel authToken =
        getHookFn vars { w with pods := fun _ _ => .ok [pod0] } commChannel authToken) := by
  constructor
  · intro hnil
    subst hnil
    simp [getHookFn, hnew, hsvc, hpods]
  · intro pod0 rest hcons
    subst hcons
    refine ⟨?_, ?_, ?_, ?_⟩
    · cases h4 : (PortForwardSVC (w.portForward vars.k8sNamespace pod0.Name vars.servicePort)
          vars.k8sNamespace pod0.Name vars.servicePort).err with
      | some e => simp [getHookFn, callPortForwardSVC, hnew, hsvc, hpods, h4]
      | none =>
        cases h5 : (PortForwardSVC (w.portForward vars.k8sNamespace pod0.Name vars.servicePort)
            vars.k8sNamespace pod0.Name vars.servicePort).handle with
        | none => simp [getHookFn, callPortForwardSVC, hnew, hsvc, hpods, h4, h5]
        | some newChannel =>
          cases h6 : GetSecret
              (w.secret vars.k8sNamespace
                ("keycloak-client-secret-" ++ vars.clientSecretID ++ "-" ++ vars.realmName))
              vars.k8sNamespace
              ("keycloak-client-secret-" ++ vars.clientSecretID ++ "-" ++ vars.realmName) with
          | error e => simp [getHookFn, callPortForwardSVC, hnew, hsvc, hpods, h4, h5, h6]
          | ok sec =>
            cases h7 : ((NewKeycloakTokenManager
                { Credentials :=
                    { ClientID := sec.Data "CLIENT_ID", ClientSecret := sec.Data "CLIENT_SECRET" },
                  TokenURL := vars.keycloakURL }).GetValidToken w.now w.tokenEndpoint).err with
            | some e => simp [getHookFn, callPortForwardSVC, hnew, hsvc, hpods, h4, h5, h6, h7]
            | none => simp [getHookFn, callPortForwardSVC, hnew, hsvc, hpods, h4, h5, h6, h7]
    · intro e h4
      simp [getHookFn, callPortForwardSVC, hnew, hsvc, hpods, h4]
    · intro newChannel h4 h5
      cases h6 : GetSecret
          (w.secret vars.k8sNamespace
            ("keycloak-client-secret-" ++ vars.clientSecretID ++ "-" ++ vars.realmName))
          vars.k8sNamespace
          ("keycloak-client-secret-" ++ vars.clientSecretID ++ "-" ++ vars.realmName) with
      | error e => simp [getHookFn, callPortForwardSVC, hnew, hsvc, hpods, h4, h5, h6]
      | ok sec =>
        cases h7 : ((NewKeycloakTokenManager
            { Credentials :=
                { ClientID := sec.Data "CLIENT_ID", ClientSecret := sec.Data "CLIENT_SECRET" },
              TokenURL := vars.keycloakURL }).GetValidToken w.now w.tokenEndpoint).err with
        | some e => simp [getHookFn, callPortForwardSVC, hnew, hsvc, hpods, h4, h5, h6, h7]
        | none => simp [getHookFn, callPortForwardSVC, hnew, hsvc, hpods, h4, h5, h6, h7]
    · simp only [getHookFn, callPortForwardSVC, hnew, hsvc, hpods]

/-- C8, at a sample input, in a cluster where only a tunnel to `pod-a` becomes
ready: with no pod the hook fails before any call; with the pods `pod-a`,
`pod-b` in that order the one call is for `pod-a` and the hook publishes the
handle of that tunnel; with the pods `pod-b`, `pod-a` the one call is for
`pod-b` and the hook fails with the timeout of that tunnel. -/
theorem C8_hook_pods_witness :
    (getHookFn sampleVars (sampleHookWorld []) PFCommunication.zero "").outcome =
      Outcome.failed "no pods found for service things in namespace prod" ∧
    (getHookFn sampleVars (sampleHookWorld []) PFCommunication.zero "").portForwardCalls = [] ∧
    (getHookFn sampleVars (sampleHookWorld [{ Name := "pod-a" }, { Name := "pod-b" }])
      PFCommunication.zero "").portForwardCalls =
      [{ namespace_ := "prod", podName := "pod-a", port := 8080 }] ∧
    (getHookFn sampleVars (sampleHookWorld [{ Name := "pod-a" }, { Name := "pod-b" }])
      PFCommunication.zero "").commChannel = sampleHandle ∧
    (getHookFn sampleVars (sampleHookWorld [{ Name := "pod-b" }, { Name := "pod-a" }])
      PFCommunication.zero "").portForwardCalls =
      [{ namespace_ := "prod", podName := "pod-b", port := 8080 }] ∧
    (getHookFn sampleVars (sampleHookWorld [{ Name := "pod-b" }, { Name := "pod-a" }])
      PFCommunication.zero "").outcome =
      Outcome.failed "timeout waiting for port forwarding to be ready" ∧
    (getHookFn sampleVars (sampleHookWorld [{ Name := "pod-b" }, { Name := "pod-a" }])
      PFCommunication.zero "").commChannel = PFCommunication.zero :=
  have hnone := (C8_hook_pods sampleVars (sampleHookWorld []) PFCommunication.zero ""
    { Selector := [("app", "things")] } [] rfl rfl rfl).1 rfl
  have hab := (C8_hook_pods sampleVars (sampleHookWorld [{ Name := "pod-a" }, { Name := "pod-b" }])
    PFCommunication.zero "" { Selector := [("app", "things")] }
    [{ Name := "pod-a" }, { Name := "pod-b" }] rfl rfl rfl).2 _ _ rfl
  have hba := (C8_hook_pods sampleVars (sampleHookWorld [{ Name := "pod-b" }, { Name := "pod-a" }])
    PFCommunication.zero "" { Selector := [("app", "things")] }
    [{ Name := "pod-b" }, { Name := "pod-a" }] rfl rfl rfl).2 _ _ rfl
  ⟨hnone.1, hnone.2.1, hab.1, hab.2.2.1 sampleHandle (by decide) (by decide), hba.1,
    (hba.2.1 "timeout waiting for port forwarding to be ready" (by decide)).1,
    (hba.2.1 "timeout waiting for port forwarding to be ready" (by decide)).2.1⟩

/-- C9, the code at the failing input: the deadline fires first and the
readiness signal only afterwards.  The call returns the timeout error and no
handle, the background forwarder has been started, and its stop channel is
still as `make` left it: nothing was sent on it. -/
theorem C9_timeout_leaves_forwarder_running :
    (PortForwardSVC (samplePortForward .deadline [.ready]) "prod" "pod-a" 8080).handle = none ∧
    (PortForwardSVC (samplePortForward .deadline [.ready]) "prod" "pod-a" 8080).err =
      some "timeout waiting for port forwarding to be ready" ∧
    (PortForwardSVC (samplePortForward .deadline [.ready]) "prod" "pod-a" 8080).forwarderStarted
      = true ∧
    (PortForwardSVC (samplePortForward .deadline [.ready]) "prod" "pod-a" 8080).stopChan =
      some { cap := 1, queued := 0, sent := 0, received := 0 } := by
  decide

/-- C10 as stated fails, on the handle `PortForwardSVC` returns: two calls of
`Close` with the forwarder taking the first signal in between send the stop
signal twice; two calls back to back leave the second blocked on the full
buffer; and of three calls the third blocks although the forwarder has already
received the signal, that is, although the tunnel is already closed. -/
theorem C10_close_not_idempotent :
    (PortForwardSVC (samplePortForward .ready []) "prod" "pod-a" 8080).handle =
      some sampleHandle ∧
    closeTimes [false, true] sampleHandle =
      (2, { sampleHandle with
            stopChan := some { cap := 1, queued := 1, sent := 2, received := 1 } }, false) ∧
    closeTimes [false, false] sampleHandle =
      (1, { sampleHandle with
            stopChan := some { cap := 1, queued := 1, sent := 1, received := 0 } }, true) ∧
    closeTimes [false, true, true] sampleHandle =
      (2, { sampleHandle with
            stopChan := some { cap := 1, queued := 1, sent := 2, received := 1 } }, true) := by
  decide

/-- C10, amended: `Close` is one send on the stop channel and is not
idempotent.  On a handle returned by `PortForwardSVC` the first call returns
without blocking and sends the stop signal once.  For every sequence of calls,
whenever the forwarder is scheduled in between: the number of signals sent
equals the number of calls that returned, the first call always returns, at
most two calls return (the buffer holds one signal and the forwarder takes at
most one), and if no call blocked then every call returned.  A call blocks
exactly when the buffer is full at the time it is made. -/
theorem C10_close_sends_each_time (w : PortForwardWorld) (namespace_ podName : String)
    (port : Int) (pf : PFCommunication)
    (h : (PortForwardSVC w namespace_ podName port).handle = some pf) :
    pf.Close = .returned
      { pf with stopChan := some { cap := 1, queued := 1, sent := 1, received := 0 } } ∧
    (∀ schedule : List Bool, ∃ c : Chan,
      (closeTimes schedule pf).2.1.stopChan = some c ∧
      c.sent = (closeTimes schedule pf).1 ∧
      (schedule ≠ [] → 1 ≤ (closeTimes schedule pf).1) ∧
      (closeTimes schedule pf).1 ≤ 2 ∧
      ((closeTimes schedule pf).2.2 = false → (closeTimes schedule pf).1 = schedule.length)) ∧
    (∀ (pf1 : PFCommunication) (c : Chan), pf1.stopChan = some c →
      (pf1.Close = .blocked ↔ c.cap ≤ c.queued)) := by
  obtain ⟨hstop, _⟩ := PortForwardSVC_handle w namespace_ podName port pf h
  have hfresh : StopChanOk (makeChan 1) := ⟨rfl, by decide, by decide, rfl⟩
  refine ⟨?_, ?_, ?_⟩
  · simp [PFCommunication.Close, hstop, Chan.send, makeChan]
  · intro schedule
    obtain ⟨c, hc, hok, hsent, hlen⟩ := closeTimes_inv schedule pf (makeChan 1) hstop hfresh
    obtain ⟨_, hq, hr, hsum⟩ := hok
    have hsent1 : c.sent = (closeTimes schedule pf).1 := by
      simpa [makeChan] using hsent
    refine ⟨c, hc, hsent1, ?_, by omega, hlen⟩
    intro hne
    cases schedule with
    | nil => exact absurd rfl hne
    | cons b rest =>
      have hrecv : (if b = true then forwarderReceive pf else pf) = pf := by
        cases b <;> simp [forwarderReceive, hstop, Chan.recv, makeChan]
      simp [closeTimes, hrecv, PFCommunication.Close, hstop, Chan.send, makeChan]
  · intro pf1 c hc
    simp only [PFCommunication.Close, hc, Chan.send]
    by_cases hlt : c.queued < c.cap
    · have hle : ¬ c.cap ≤ c.queued := by omega
      simp [hlt, hle]
    · have hle : c.cap ≤ c.queued := by omega
      simp [hlt, hle]

/-- C10, amended, at a sample input: the handle of the sample transport and
the schedule of three calls with the forwarder scheduled before the second. -/
theorem C10_close_sends_each_time_witness :
    sampleHandle.Close = .returned
      { sampleHandle with
        stopChan := some { cap := 1, queued := 1, sent := 1, received := 0 } } ∧
    (∃ c : Chan, (closeTimes [false, true, false] sampleHandle).2.1.stopChan = some c ∧
      c.sent = (closeTimes [false, true, false] sampleHandle).1 ∧
      (closeTimes [false, true, false] sampleHandle).1 ≤ 2) :=
  have h := C10_close_sends_each_time (samplePortForward .ready []) "prod" "pod-a" 8080
    sampleHandle (by decide)
  ⟨h.1, (h.2.1 [false, true, false]).imp fun _ hc => ⟨hc.1, hc.2.1, hc.2.2.2.1⟩⟩

end K8snake
